import Mathlib

/-
Verification of the zippy primer-pair data model and store
(src/app/zippylib/primer.py and src/app/zippylib/database.py).

The Python classes are shallowly embedded: each Python function that can
raise is a Lean function into `Except PyErr`, machine integers are `Int`
or `Nat` (Python 2 ints are unbounded; SQLite integer division truncates
toward zero and is modelled with `Int.tdiv`).  The only REAL intermediate,
the query ORDER BY key, is a half-integer and is modelled exactly by its
double, an `Int`.
-/

/-- Python exception kinds raised by the embedded code paths. -/
inductive PyErr where
  | boundExceed     -- BoundExceedError (primer.py line 106)
  | typeError       -- TypeError, e.g. calling a str/None attribute (database.py line 123)
  | attributeError  -- AttributeError, e.g. missing method / attribute on None
  | indexError      -- IndexError from list indexing
  | assertionError  -- failed `assert`
  | nameError       -- NameError from an unbound local (database.py line 66)
deriving DecidableEq

/-- Locus (primer.py lines 365-370): a genomic position/span with strand. -/
structure Locus where
  chrom : String
  offset : Int
  length : Nat
  reverse : Bool
deriving DecidableEq

/-- One element of Primer.snp: the tuple (refName, snpOffset, snpLength, id)
built by Locus.snpCheck (primer.py line 393).  snpOffset is relative to the
locus start and may be negative; snpLength is a max of allele string lengths. -/
structure SnpRec where
  refName : String
  offset : Int
  length : Nat
  varid : String
deriving DecidableEq

/-- Modelled from the spec: `GenInterval` comes from zippylib/interval.py, which
is not among the provided sources.  Per spec section 6 a query input is a
genomic interval (chrom, start, end); PrimerPair.amplicons stores
GenInterval(chrom, start, end, name) as inert data.  Modelled as a plain record. -/
structure GenInterval where
  chrom : String
  chromStart : Int
  chromEnd : Int
  name : Option String
deriving DecidableEq

/-- Modelled from the spec: primer3.calcTm is the external design-oracle
thermodynamics engine (spec section 1, OUT OF SCOPE).  Its numeric value never
influences any claim below, so it is modelled as the constant 0. -/
def calcTm (_seq : String) : Rat := 0

/-- GC fraction, primer.py line 314:
(seq.count('G') + seq.count('C')) / float(len(seq)). -/
def gcContent (s : String) : Rat :=
  ((s.data.count 'G' + s.data.count 'C' : Nat) : Rat) / ((s.length : Nat) : Rat)

/-- Primer (primer.py lines 307-322). -/
structure Primer where
  rank : Int
  name : String
  seq : String
  tag : Option String
  tm : Rat
  gc : Rat
  loci : List Locus
  snp : List SnpRec
  sigmatch : Nat
  targetposition : Option Locus
  location : Option String
deriving DecidableEq

/-- Python str.upper(), character by character (ASCII a-z to A-Z, which is
exactly what Python 2 str.upper does on byte strings). -/
def pyUpper (s : String) : String := String.mk (s.data.map Char.toUpper)

/-- Primer.__init__ (primer.py lines 308-322).  The `loci` parameter is
accepted but never assigned: line 315 sets self.loci = [] and lines 321-322
read `if loci: pass`, so the passed-in loci list is silently ignored. -/
def mkPrimer (name seq : String) (targetposition : Option Locus)
    (tag : Option String) (lociArg : List Locus) (location : Option String) : Primer :=
  { rank := -1
    name := name
    seq := pyUpper seq
    tag := tag
    tm := calcTm (pyUpper seq)
    gc := gcContent (pyUpper seq)
    loci := []
    snp := []
    sigmatch := 0
    targetposition := targetposition
    location := location }

/-- Primer.addTarget (primer.py lines 347-349): appends
Locus(chrom, pos, len(self), reverse), where len(self) = len(self.seq). -/
def Primer.addTarget (p : Primer) (chrom : String) (pos : Int) (reverse : Bool) : Primer :=
  { p with loci := p.loci ++ [{ chrom := chrom, offset := pos, length := p.seq.length, reverse := reverse }] }

/-- Python str(x) for an optional string: str(None) = "None". -/
def pyStrOpt : Option String → String
  | none => "None"
  | some s => s

/-- Python str.rstrip(chars) on a list of characters. -/
def rstripChars (l : List Char) (strip : List Char) : List Char :=
  (l.reverse.dropWhile (fun c => strip.contains c)).reverse

/-- The commonPrefix helper (primer.py lines 22-27), source name commonPrefix:
if both strings are nonempty, collect the indices of equal characters of the
zipped strings, keep the initial contiguous run (enumerate(...) with i==j),
and when that run is at least `commonlength` long return the prefix of `left`
of that length with trailing strip characters removed; otherwise None. -/
def commonLeading (left right : String) (stripchars : List Char) (commonlength : Nat) : Option String :=
  if left.length ≠ 0 ∧ right.length ≠ 0 then
    let eqIdxs : List Nat :=
      ((left.data.zip right.data).enum.filter (fun ix => ix.2.1 == ix.2.2)).map (fun ix => ix.1)
    let matchingPositions : List Nat :=
      (eqIdxs.enum.filter (fun ij => ij.1 == ij.2)).map (fun ij => ij.1 + 1)
    match matchingPositions.max? with
    | some m => if m ≥ commonlength then some (String.mk (rstripChars (left.data.take m) stripchars)) else none
    | none => none
  else none

/-- PrimerPair (primer.py lines 151-204): a list subclass carrying a bound
`self.length`, a `reversed` flag and a `name`.  `elems` models the list
contents inherited from `list`. -/
structure PrimerPair where
  elems : List Primer
  length : Option Nat
  reversed : Bool
  name : Option String
deriving DecidableEq

/-- PrimerPair.__init__ (primer.py lines 152-158): list.__init__ stores the
elements with NO bound check; line 158 computes
commonPrefix(self[0].name, self[1].name) when no name was passed but discards
the result (it is never assigned to self.name), so `name` keeps the argument. -/
def PrimerPair.init (elements : List Primer) (length : Option Nat) (name : Option String) : PrimerPair :=
  { elems := elements, length := length, reversed := false, name := name }

/-- PrimerPair._check_item_bound (primer.py lines 160-162):
`if self.length and len(self) >= self.length: raise BoundExceedError()`.
Python truthiness: None and 0 are falsy. -/
def PrimerPair.checkItemBound (pp : PrimerPair) : Except PyErr Unit :=
  match pp.length with
  | some n => if n ≠ 0 ∧ pp.elems.length ≥ n then Except.error PyErr.boundExceed else Except.ok ()
  | none => Except.ok ()

/-- PrimerPair._check_list_bound (primer.py lines 164-166):
`if self.length and len(self) + len(L) > self.length: raise BoundExceedError()`. -/
def PrimerPair.checkListBound (pp : PrimerPair) (L : List Primer) : Except PyErr Unit :=
  match pp.length with
  | some n => if n ≠ 0 ∧ pp.elems.length + L.length > n then Except.error PyErr.boundExceed else Except.ok ()
  | none => Except.ok ()

/-- PrimerPair.append (primer.py lines 173-175). -/
def PrimerPair.append (pp : PrimerPair) (x : Primer) : Except PyErr PrimerPair :=
  match pp.checkItemBound with
  | Except.error e => Except.error e
  | Except.ok _ => Except.ok { pp with elems := pp.elems ++ [x] }

/-- PrimerPair.extend (primer.py lines 177-179). -/
def PrimerPair.extend (pp : PrimerPair) (L : List Primer) : Except PyErr PrimerPair :=
  match pp.checkListBound L with
  | Except.error e => Except.error e
  | Except.ok _ => Except.ok { pp with elems := pp.elems ++ L }

/-- PrimerPair.insert (primer.py lines 181-183); Python list.insert clamps the
index into range, i.e. inserts before position i. -/
def PrimerPair.insert (pp : PrimerPair) (i : Nat) (x : Primer) : Except PyErr PrimerPair :=
  match pp.checkItemBound with
  | Except.error e => Except.error e
  | Except.ok _ => Except.ok { pp with elems := pp.elems.take i ++ [x] ++ pp.elems.drop i }

/-- PrimerPair.__add__ (primer.py lines 185-187); list.__add__ on a subclass
returns a plain list, so the result type is a list of primers. -/
def PrimerPair.add (pp : PrimerPair) (L : List Primer) : Except PyErr (List Primer) :=
  match pp.checkListBound L with
  | Except.error e => Except.error e
  | Except.ok _ => Except.ok (pp.elems ++ L)

/-- PrimerPair.__iadd__ (primer.py lines 189-191); extends in place and
returns self. -/
def PrimerPair.iadd (pp : PrimerPair) (L : List Primer) : Except PyErr PrimerPair :=
  match pp.checkListBound L with
  | Except.error e => Except.error e
  | Except.ok _ => Except.ok { pp with elems := pp.elems ++ L }

/-- Amplicon size filter (primer.py line 267):
`(not sizeRange) or (amplen >= sizeRange[0] and amplen <= sizeRange[1])`.
`none` models the falsy empty list, `some (lo, hi)` the two-element list. -/
def inSizeRange (sizeRange : Option (Int × Int)) (amplen : Int) : Bool :=
  match sizeRange with
  | none => true
  | some (lo, hi) => decide (lo ≤ amplen) && decide (amplen ≤ hi)

/-- Body of PrimerPair.amplicons (primer.py lines 261-270) for the two primers
self[0], self[1]: for each m in left loci and n in right loci on the same
chromosome with amplen = n.offset + n.length - m.offset inside the size range,
collect (m, n, GenInterval(m.chrom, m.offset, n.offset + n.length, self.name)). -/
def ampliconsOf (p0 p1 : Primer) (pairname : Option String)
    (sizeRange : Option (Int × Int)) : List (Locus × Locus × GenInterval) :=
  p0.loci.flatMap (fun m =>
    (p1.loci.filter (fun n =>
      (m.chrom == n.chrom) && inSizeRange sizeRange (n.offset + (n.length : Int) - m.offset))).map
      (fun n => (m, n,
        { chrom := m.chrom, chromStart := m.offset, chromEnd := n.offset + (n.length : Int), name := pairname })))

/-- PrimerPair.amplicons (primer.py lines 261-270); indexing self[0]/self[1]
raises IndexError on a pair with fewer than two elements. -/
def PrimerPair.amplicons (pp : PrimerPair) (sizeRange : Option (Int × Int)) :
    Except PyErr (List (Locus × Locus × GenInterval)) :=
  match pp.elems with
  | p0 :: p1 :: _ => Except.ok (ampliconsOf p0 p1 pp.name sizeRange)
  | _ => Except.error PyErr.indexError

/-- Body of PrimerPair.snpcount (primer.py lines 272-273). -/
def snpcountOf (p0 p1 : Primer) : Nat :=
  p0.snp.length + p1.snp.length

/-- Body of PrimerPair.mispriming (primer.py lines 275-276):
max(max(len(self[0].loci), len(self[1].loci)) - 1, 0), computed over Int
exactly as Python does. -/
def misprimingOf (p0 p1 : Primer) : Int :=
  max (((max p0.loci.length p1.loci.length : Nat) : Int) - 1) 0

/-- Body of PrimerPair.criticalsnp (primer.py lines 278-280):
len([s for s in left.snp if s[1] >= 2*len(left)/3]) +
len([s for s in right.snp if s[1]+s[2] <= len(right)/3]),
with len(primer) = len(primer.seq) and Python 2 floor division on ints. -/
def criticalsnpOf (p0 p1 : Primer) : Nat :=
  p0.snp.countP (fun s => decide (((2 * p0.seq.length / 3 : Nat) : Int) ≤ s.offset)) +
  p1.snp.countP (fun s => decide (s.offset + (s.length : Int) ≤ ((p1.seq.length / 3 : Nat) : Int)))

/-- Body of PrimerPair.designrank (primer.py lines 282-284):
assert self[0].rank == self[1].rank, then int(self[0].rank). -/
def designrankOf (p0 p1 : Primer) : Except PyErr Int :=
  if p0.rank = p1.rank then Except.ok p0.rank else Except.error PyErr.assertionError

/-- PrimerPair.snpcount (primer.py lines 272-273). -/
def PrimerPair.snpcount (pp : PrimerPair) : Except PyErr Nat :=
  match pp.elems with
  | p0 :: p1 :: _ => Except.ok (snpcountOf p0 p1)
  | _ => Except.error PyErr.indexError

/-- PrimerPair.mispriming (primer.py lines 275-276). -/
def PrimerPair.mispriming (pp : PrimerPair) : Except PyErr Int :=
  match pp.elems with
  | p0 :: p1 :: _ => Except.ok (misprimingOf p0 p1)
  | _ => Except.error PyErr.indexError

/-- PrimerPair.criticalsnp (primer.py lines 278-280). -/
def PrimerPair.criticalsnp (pp : PrimerPair) : Except PyErr Nat :=
  match pp.elems with
  | p0 :: p1 :: _ => Except.ok (criticalsnpOf p0 p1)
  | _ => Except.error PyErr.indexError

/-- PrimerPair.designrank (primer.py lines 282-284). -/
def PrimerPair.designrank (pp : PrimerPair) : Except PyErr Int :=
  match pp.elems with
  | p0 :: p1 :: _ => designrankOf p0 p1
  | _ => Except.error PyErr.indexError

/-- PrimerPair.sortvalues (primer.py lines 257-259):
assert len(self) == 2, then the tuple
(len(self.amplicons([0,10000])) - 1, criticalsnp, mispriming, snpcount,
designrank).  The first component is a plain Python int subtraction with no
flooring.  The designrank assert propagates as an AssertionError. -/
def PrimerPair.sortvalues (pp : PrimerPair) : Except PyErr (Int × Nat × Int × Nat × Int) :=
  match pp.elems with
  | [p0, p1] =>
    match designrankOf p0 p1 with
    | Except.error e => Except.error e
    | Except.ok dr =>
      Except.ok (((ampliconsOf p0 p1 pp.name (some (0, 10000))).length : Int) - 1,
        criticalsnpOf p0 p1, misprimingOf p0 p1, snpcountOf p0 p1, dr)
  | _ => Except.error PyErr.assertionError

/-- PrimerPair.uniqueid (primer.py lines 299-300):
sha1(','.join([str(tag0)+'-'+seq0, str(tag1)+'-'+seq1])).hexdigest().
The cryptographic digest is irrelevant to every property below, so the hex
digest function is a parameter; the digest input string is exactly the
source's join of the two tagged sequences, which does not involve any name. -/
def PrimerPair.uniqueid (pp : PrimerPair) (sha1hex : String → String) : Except PyErr String :=
  match pp.elems with
  | p0 :: p1 :: _ =>
    Except.ok (sha1hex ((pyStrOpt p0.tag ++ "-" ++ p0.seq) ++ "," ++ (pyStrOpt p1.tag ++ "-" ++ p1.seq)))
  | _ => Except.error PyErr.indexError

/-- A row of the `primer` table (database.py line 24):
primer(name TEXT PRIMARY KEY, seq TEXT, tm REAL, gc REAL). -/
structure PrimerRow where
  name : String
  seq : String
  tm : Rat
  gc : Rat
deriving DecidableEq

/-- A row of the `target` table (database.py line 25):
target(seq TEXT, chrom TEXT, position INT, reverse BOOLEAN).
The table has no UNIQUE constraint, so INSERT OR REPLACE appends. -/
structure TargetRow where
  seq : String
  chrom : String
  position : Int
  reverse : Bool
deriving DecidableEq

/-- A row of the `pairs` table (database.py line 26):
pairs(pairid, uniqueid, left, right, chrom, start, end),
UNIQUE (pairid, uniqueid) ON CONFLICT REPLACE.  The `end` column is named
`stop` here because `end` is a Lean keyword. -/
structure PairRow where
  pairid : String
  uniqueid : String
  left : String
  right : String
  chrom : String
  start : Int
  stop : Int
deriving DecidableEq

/-- A row of the `status` table (database.py line 27):
status(pairid, uniqueid, status INT, dateadded TEXT),
UNIQUE (pairid, uniqueid) ON CONFLICT REPLACE.  The status column is
nullable (addPair inserts no value for it, database.py line 124). -/
structure StatusRow where
  pairid : String
  uniqueid : String
  status : Option Int
  dateadded : Nat
deriving DecidableEq

/-- The SQLite store state: the four tables created by PrimerDB.__init__
(database.py lines 24-28), each as a list of rows in insertion order. -/
structure DB where
  primer : List PrimerRow
  target : List TargetRow
  pairs : List PairRow
  status : List StatusRow
deriving DecidableEq

/-- INSERT OR REPLACE INTO primer by PRIMARY KEY name: SQLite deletes any
conflicting row and appends the new one. -/
def upsertPrimerRow (rows : List PrimerRow) (r : PrimerRow) : List PrimerRow :=
  rows.filter (fun q => q.name != r.name) ++ [r]

/-- INSERT OR REPLACE INTO pairs, UNIQUE (pairid, uniqueid) ON CONFLICT
REPLACE. -/
def upsertPairRow (rows : List PairRow) (r : PairRow) : List PairRow :=
  rows.filter (fun q => !(q.pairid == r.pairid && q.uniqueid == r.uniqueid)) ++ [r]

/-- INSERT OR REPLACE INTO status, UNIQUE (pairid, uniqueid) ON CONFLICT
REPLACE. -/
def upsertStatusRow (rows : List StatusRow) (r : StatusRow) : List StatusRow :=
  rows.filter (fun q => !(q.pairid == r.pairid && q.uniqueid == r.uniqueid)) ++ [r]

/-- One iteration of the addPrimer loop (database.py lines 88-94): upsert the
primer row, then insert one target row per locus (the target table has no
UNIQUE constraint, so these are plain appends). -/
def addPrimerStep (d : DB) (p : Primer) : DB :=
  { d with
    primer := upsertPrimerRow d.primer { name := p.name, seq := p.seq, tm := p.tm, gc := p.gc }
    target := d.target ++ p.loci.map (fun l =>
      { seq := p.seq, chrom := l.chrom, position := l.offset, reverse := l.reverse }) }

/-- PrimerDB.addPrimer (database.py lines 82-98): one connection, all inserts,
a single commit at the end, close in `finally`.  In this pure model no insert
can fail, so the committed state is exactly the fold over the batch; a failed
execute would propagate before the commit, leaving the store unchanged. -/
def PrimerDB.addPrimer (db : DB) (primers : List Primer) : DB :=
  primers.foldl addPrimerStep db

/-- The flattening loop of PrimerDB.addPair (database.py lines 103-106):
flat collects p[0] and p[1] of every pair; a pair with fewer than two
elements raises IndexError here, before anything touches the store. -/
def flattenPairs : List PrimerPair → Except PyErr (List Primer)
  | [] => Except.ok []
  | p :: rest =>
    match p.elems with
    | a :: b :: _ =>
      match flattenPairs rest with
      | Except.ok tl => Except.ok (a :: b :: tl)
      | Except.error e => Except.error e
    | _ => Except.error PyErr.indexError

/-- The pair-insertion loop of PrimerDB.addPair (database.py lines 116-125).
For the first pair: left.targetposition.chrom (AttributeError when the target
position is None), right.targetposition.offset + length (likewise), then the
execute arguments are built, starting with p.name() — but PrimerPair.name is
a str/None attribute, not a method, so this always raises TypeError.  The
loop therefore never completes an insert and never reaches the commit on
line 126. -/
def addPairLoop : List PrimerPair → Except PyErr Unit
  | [] => Except.ok ()
  | p :: _ =>
    match p.elems with
    | left :: right :: _ =>
      match left.targetposition with
      | none => Except.error PyErr.attributeError
      | some _ =>
        match right.targetposition with
        | none => Except.error PyErr.attributeError
        | some _ => Except.error PyErr.typeError
    | _ => Except.error PyErr.indexError

/-- PrimerDB.addPair (database.py lines 100-129): first addPrimer commits the
flattened primer batch on its own connection, then a second connection runs
the pair/status loop; an exception there propagates after the `finally` close,
so the uncommitted pair transaction is rolled back while the primer commit
stays. -/
def PrimerDB.addPair (db : DB) (pairs : List PrimerPair) : DB × Option PyErr :=
  match flattenPairs pairs with
  | Except.error e => (db, some e)
  | Except.ok flat =>
    let db1 := PrimerDB.addPrimer db flat
    match addPairLoop pairs with
    | Except.error e => (db1, some e)
    | Except.ok _ => (db1, none)

/-- PrimerDB.blacklist with an argument (database.py lines 65-68): the branch
uses `cursor` before it is assigned (it is only bound in the else branch), so
the call raises NameError before any write reaches the store. -/
def PrimerDB.blacklistAdd (db : DB) (_add : String) : DB × Option PyErr :=
  (db, some PyErr.nameError)

/-- The pair-midpoint expression in the query ORDER BY key (database.py
line 140): p.start + (p.end - p.start) / 2 with SQLite integer division,
which truncates toward zero. -/
def pairMidpoint (p : PairRow) : Int :=
  p.start + Int.tdiv (p.stop - p.start) 2

/-- Twice the bound parameter of the ORDER BY key (database.py line 147).
The parameter itself is the Python float
variant.chromStart + int(variant.chromEnd - variant.chromStart) / 2.0;
only its half-integral part is non-integral, so twice the value,
2*chromStart + (chromEnd - chromStart), is an exact integer. -/
def queryMidpointX2 (v : GenInterval) : Int :=
  2 * v.chromStart + (v.chromEnd - v.chromStart)

/-- Absolute value on Int, written so that it evaluates by cases on the sign
(the SQL abs() function). -/
def absI (x : Int) : Int := if x < 0 then -x else x

/-- Twice the midpointdistance column (database.py line 140):
2 * abs(pair midpoint - query midpoint).  The query midpoint is the only
non-integer in the source expression and is exactly a half-integer, so
doubling gives an integer inducing exactly the same ordering and the same
equalities (for SELECT DISTINCT) as the REAL value. -/
def midpointDistance (p : PairRow) (v : GenInterval) : Int :=
  absI (2 * pairMidpoint p - queryMidpointX2 v)

/-- One row of the query result set (database.py lines 139-140):
p.pairid, p.left, p.right, p.chrom, p.start, p.end, s.status,
midpointdistance. -/
structure QRow where
  pairid : String
  left : String
  right : String
  chrom : String
  start : Int
  stop : Int
  status : Option Int
  mdist : Int
deriving DecidableEq

/-- Projection of a joined (pairs, status) row pair onto the SELECT columns. -/
def projectRow (v : GenInterval) (p : PairRow) (s : StatusRow) : QRow :=
  { pairid := p.pairid, left := p.left, right := p.right, chrom := p.chrom,
    start := p.start, stop := p.stop, status := s.status, mdist := midpointDistance p v }

/-- The WHERE clause of PrimerDB.query (database.py lines 142-145) with the
actual parameter binding of line 147: the third placeholder
(p.start + length(p.left) <= ?) receives variant.chromStart and the fourth
(p.end - length(p.right) >= ?) receives variant.chromEnd. -/
def rowMatchP (v : GenInterval) (p : PairRow) (s : StatusRow) : Prop :=
  p.pairid = s.pairid ∧ p.uniqueid = s.uniqueid ∧ p.chrom = v.chrom ∧
  p.start + (p.left.length : Int) ≤ v.chromStart ∧
  v.chromEnd ≤ p.stop - (p.right.length : Int)

instance (v : GenInterval) (p : PairRow) (s : StatusRow) : Decidable (rowMatchP v p s) := by
  unfold rowMatchP; infer_instance

/-- Ordering of result rows by the midpointdistance column (ORDER BY,
database.py line 146). -/
def qrowLE (a b : QRow) : Prop := a.mdist ≤ b.mdist

instance : DecidableRel qrowLE := fun a b => by unfold qrowLE; infer_instance

instance : IsTotal QRow qrowLE := ⟨fun a b => le_total a.mdist b.mdist⟩

instance : IsTrans QRow qrowLE := ⟨fun _ _ _ h1 h2 => le_trans h1 h2⟩

/-- The result set of the SELECT in PrimerDB.query (database.py lines
139-148): the cross join of pairs and status restricted by the WHERE clause,
projected (SELECT DISTINCT collapses duplicate projected rows), ordered by
midpointdistance ascending. -/
def queryRows (db : DB) (v : GenInterval) : List QRow :=
  List.insertionSort qrowLE
    ((db.pairs.flatMap (fun p => db.status.filterMap (fun s =>
      if rowMatchP v p s then some (projectRow v p s) else none))).dedup)

/-- Reconstruction of one result row (database.py lines 153-163): the two
Locus and Primer objects of lines 157-160 are built, then line 161 calls
leftPrimer.calcProperties() — Primer has no calcProperties method, so every
row raises AttributeError.  (Had it not, line 163 would raise TypeError:
PrimerPair.__init__ accepts no `status` keyword.) -/
def reconstructRow (row : QRow) : Except PyErr PrimerPair :=
  let leftTargetposition : Locus :=
    { chrom := row.chrom, offset := row.start, length := row.left.length, reverse := false }
  let rightTargetposition : Locus :=
    { chrom := row.chrom, offset := row.stop - (row.right.length : Int), length := row.right.length, reverse := true }
  let _leftPrimer : Primer :=
    mkPrimer (row.pairid ++ "_left") row.left (some leftTargetposition) none [] none
  let _rightPrimer : Primer :=
    mkPrimer (row.pairid ++ "_right") row.right (some rightTargetposition) none [] none
  Except.error PyErr.attributeError

/-- The reconstruction loop of PrimerDB.query (database.py lines 152-163):
primerPairs is built row by row; the first exception aborts the call. -/
def buildPairs : List QRow → Except PyErr (List PrimerPair)
  | [] => Except.ok []
  | r :: rest =>
    match reconstructRow r with
    | Except.error e => Except.error e
    | Except.ok pp =>
      match buildPairs rest with
      | Except.error e => Except.error e
      | Except.ok tl => Except.ok (pp :: tl)

/-- PrimerDB.query (database.py lines 131-164). -/
def PrimerDB.query (db : DB) (v : GenInterval) : Except PyErr (List PrimerPair) :=
  buildPairs (queryRows db v)

/-- Fixture: a left primer with no mapping loci. -/
def pa : Primer := mkPrimer "PA_left" "ACGT" none none [] none

/-- Fixture: a right primer with no mapping loci. -/
def pb : Primer := mkPrimer "PA_right" "GGTT" none none [] none

/-- Fixture: a third primer used to overflow a pair. -/
def pc : Primer := mkPrimer "PC" "CCAA" none none [] none

/-- Fixture: a two-element pair built with the default bound. -/
def pairAB : PrimerPair := PrimerPair.init [pa, pb] (some 2) none

/-- Fixture: a PrimerPair constructed from three elements with the default
bound of 2 — the constructor performs no check. -/
def pairABC : PrimerPair := PrimerPair.init [pa, pb, pc] (some 2) none

/-- Fixture: primer for the uniqueid test, tag T1. -/
def p7a : Primer := mkPrimer "alpha_F" "ACGT" none (some "T1") [] none

/-- Fixture: primer for the uniqueid test, tag T2. -/
def p7b : Primer := mkPrimer "alpha_R" "GGTT" none (some "T2") [] none

/-- Fixture: same tag and sequence as p7a, different name. -/
def p7c : Primer := mkPrimer "beta_F" "acgt" none (some "T1") [] none

/-- Fixture: same tag and sequence as p7b, different name. -/
def p7d : Primer := mkPrimer "beta_R" "GGTT" none (some "T2") [] none

/-- Fixture: a pair named alpha. -/
def pp7 : PrimerPair := PrimerPair.init [p7a, p7b] (some 2) (some "alpha")

/-- Fixture: a pair named beta with the same tagged sequences as pp7. -/
def pp7x : PrimerPair := PrimerPair.init [p7c, p7d] (some 2) (some "beta")

/-- Fixture: a primer with two observed mapping loci (added via addTarget). -/
def p8a : Primer :=
  ((mkPrimer "M_F" "ACGT" none none [] none).addTarget "chr1" 10 false).addTarget "chr2" 20 false

/-- Fixture: a primer with one observed mapping locus. -/
def p8b : Primer := (mkPrimer "M_R" "GGTT" none none [] none).addTarget "chr1" 50 true

/-- Fixture: a pair whose primers carry 2 and 1 loci. -/
def pp8 : PrimerPair := PrimerPair.init [p8a, p8b] (some 2) none

/-- Fixture: target locus of the stored left primer. -/
def locL : Locus := { chrom := "chr1", offset := 100, length := 4, reverse := false }

/-- Fixture: target locus of the stored right primer. -/
def locR : Locus := { chrom := "chr1", offset := 200, length := 4, reverse := true }

/-- Fixture: left primer with a target position, for the store round trip. -/
def pL5 : Primer := mkPrimer "P5_left" "ACGT" (some locL) none [] none

/-- Fixture: right primer with a target position, for the store round trip. -/
def pR5 : Primer := mkPrimer "P5_right" "GGTT" (some locR) none [] none

/-- Fixture: the pair to be stored by addPair. -/
def pairX5 : PrimerPair := PrimerPair.init [pL5, pR5] (some 2) (some "pairX")

/-- Fixture: an empty store. -/
def dbEmpty : DB := { primer := [], target := [], pairs := [], status := [] }

/-- Fixture: an interval covered by pairX5's span. -/
def iv5 : GenInterval := { chrom := "chr1", chromStart := 150, chromEnd := 160, name := none }

/-- Fixture: a stored pair row on chr1 spanning 100..300 with 2-base primers. -/
def prA : PairRow :=
  { pairid := "pairA", uniqueid := "uidA", left := "AA", right := "CC",
    chrom := "chr1", start := 100, stop := 300 }

/-- Fixture: the active status row joined with prA. -/
def stA : StatusRow := { pairid := "pairA", uniqueid := "uidA", status := some 1, dateadded := 0 }

/-- Fixture: a store holding exactly prA with status stA. -/
def dbA : DB := { primer := [], target := [], pairs := [prA], status := [stA] }

/-- Fixture: a query interval satisfying the claim's boundary predicate for
prA (start + len(left) = 102 <= chromEnd = 400 and end - len(right) = 298 >=
chromStart = 90) but not the code's (102 <= chromStart = 90 fails). -/
def vOut : GenInterval := { chrom := "chr1", chromStart := 90, chromEnd := 400, name := none }

/-- Fixture: a stored pair row whose status row is blacklisted. -/
def prB : PairRow :=
  { pairid := "pairB", uniqueid := "uidB", left := "AA", right := "CC",
    chrom := "chr1", start := 100, stop := 300 }

/-- Fixture: a blacklisted (status 0) status row joined with prB. -/
def stB : StatusRow := { pairid := "pairB", uniqueid := "uidB", status := some 0, dateadded := 0 }

/-- Fixture: a store holding exactly the blacklisted pair prB. -/
def dbB : DB := { primer := [], target := [], pairs := [prB], status := [stB] }

/-- Fixture: a query interval matched by prB under the code's predicate
(102 <= 150 and 298 >= 160). -/
def vIn : GenInterval := { chrom := "chr1", chromStart := 150, chromEnd := 160, name := none }

/-- Fixture: the projected result row for prB/stB at vIn; the midpointdistance
is |(100 + 200 / 2) - (150 + 10 / 2)| = 45, stored doubled as 90. -/
def qrB : QRow :=
  { pairid := "pairB", left := "AA", right := "CC", chrom := "chr1",
    start := 100, stop := 300, status := some 0, mdist := 90 }


/-- Counting helper: the nested amplicon loop (outer flatMap, inner
filter+map) produces one element per pair of loci satisfying the predicate,
so its length is a countP over the cross product. -/
theorem length_flatMap_filter_map {α β γ : Type} (l1 : List α) (l2 : List β)
    (q : α → β → Bool) (f : α → β → γ) :
    (l1.flatMap (fun m => ((l2.filter (q m)).map (f m)))).length
      = (List.product l1 l2).countP (fun mn => q mn.1 mn.2) := by
  induction l1 with
  | nil => rfl
  | cons a t ih =>
    simp only [List.flatMap_cons, List.length_append, List.length_map, ih,
      ← List.countP_eq_length_filter]
    rw [show List.product (a :: t) l2 = l2.map (fun b => (a, b)) ++ List.product t l2 from rfl,
      List.countP_append, List.countP_map]
    rfl

/-- addPrimer only writes the primer and target tables. -/
theorem addPrimer_pairs_eq (primers : List Primer) (db : DB) :
    (PrimerDB.addPrimer db primers).pairs = db.pairs := by
  induction primers generalizing db with
  | nil => rfl
  | cons p t ih => exact (ih (addPrimerStep db p)).trans rfl

/-- addPrimer leaves the status table unchanged as well. -/
theorem addPrimer_status_eq (primers : List Primer) (db : DB) :
    (PrimerDB.addPrimer db primers).status = db.status := by
  induction primers generalizing db with
  | nil => rfl
  | cons p t ih => exact (ih (addPrimerStep db p)).trans rfl

/-- C1 counterexample: the stored pair prA satisfies the claim's boundary
predicate (start + len(left) <= queryEnd and end - len(right) >= queryStart)
for the interval vOut and is joined with an active status row, yet the code
returns no result row for it: the SQL binds chromStart to the left bound and
chromEnd to the right bound, excluding prA. -/
theorem c1_counterexample :
    prA.chrom = vOut.chrom ∧
    prA.start + (prA.left.length : Int) ≤ vOut.chromEnd ∧
    vOut.chromStart ≤ prA.stop - (prA.right.length : Int) ∧
    prA ∈ dbA.pairs ∧ stA ∈ dbA.status ∧
    prA.pairid = stA.pairid ∧ prA.uniqueid = stA.uniqueid ∧ stA.status = some 1 ∧
    queryRows dbA vOut = [] ∧
    PrimerDB.query dbA vOut = Except.ok [] :=
  ⟨by decide, by decide, by decide, by decide, by decide, by decide, by decide,
   by decide, by decide, rfl⟩

/-- C1 (amended): the SELECT of PrimerDB.query returns exactly the rows
whose pair row joins a status row on (pairid, uniqueid), lies on the query
chromosome, and satisfies start + len(left) <= queryStart and
end - len(right) >= queryEnd (chromStart bounds the left primer and chromEnd
the right one), ordered by midpoint distance ascending; and whenever this
row set is nonempty the surrounding Python raises AttributeError (Primer has
no calcProperties method), so no pair object is ever returned for it. -/
theorem c1_query_rows_spec (db : DB) (v : GenInterval) :
    List.Sorted qrowLE (queryRows db v) ∧
    (∀ r : QRow, r ∈ queryRows db v ↔
      ∃ p, p ∈ db.pairs ∧ ∃ s, s ∈ db.status ∧
        p.pairid = s.pairid ∧ p.uniqueid = s.uniqueid ∧ p.chrom = v.chrom ∧
        p.start + (p.left.length : Int) ≤ v.chromStart ∧
        v.chromEnd ≤ p.stop - (p.right.length : Int) ∧
        projectRow v p s = r) ∧
    (queryRows db v ≠ [] → PrimerDB.query db v = Except.error PyErr.attributeError) := by
  refine ⟨List.sorted_insertionSort qrowLE _, ?_, ?_⟩
  · intro r
    unfold queryRows
    rw [(List.perm_insertionSort qrowLE _).mem_iff, List.mem_dedup, List.mem_flatMap]
    constructor
    · rintro ⟨p, hp, hr⟩
      rw [List.mem_filterMap] at hr
      obtain ⟨s, hs, hif⟩ := hr
      by_cases h : rowMatchP v p s
      · rw [if_pos h] at hif
        obtain ⟨h1, h2, h3, h4, h5⟩ := h
        exact ⟨p, hp, s, hs, h1, h2, h3, h4, h5, Option.some.inj hif⟩
      · rw [if_neg h] at hif
        exact absurd hif (by simp)
    · rintro ⟨p, hp, s, hs, h1, h2, h3, h4, h5, hr⟩
      refine ⟨p, hp, ?_⟩
      rw [List.mem_filterMap]
      exact ⟨s, hs, by rw [if_pos ⟨h1, h2, h3, h4, h5⟩, hr]⟩
  · intro hne
    unfold PrimerDB.query
    cases hq : queryRows db v with
    | nil => exact absurd hq hne
    | cons a l => rfl

/-- C1 witness: a store state with a matching (blacklisted) row, where the
query call indeed raises AttributeError. -/
theorem c1_witness : PrimerDB.query dbB vIn = Except.error PyErr.attributeError :=
  (c1_query_rows_spec dbB vIn).2.2 (by decide)

/-- C2: the WHERE clause of query has no status filter, so a pair whose most
recent status row is 0 (blacklisted) is selected by the SQL whenever it
matches the interval: with store dbB (single pair, status 0) and interval
vIn, the SQL result is exactly the blacklisted pair's row (status column 0),
and the query call then raises AttributeError during reconstruction instead
of excluding it. -/
theorem c2_blacklisted_pair_selected :
    stB.status = some 0 ∧
    queryRows dbB vIn = [qrB] ∧
    qrB.status = some 0 ∧
    PrimerDB.query dbB vIn = Except.error PyErr.attributeError :=
  ⟨rfl, by decide, rfl, rfl⟩

/-- C3 counterexample: a two-element pair whose primers have no mapping loci
has zero valid amplicons, and sortvalues then returns -1 as its first
component — not max(0, count - 1) = 0, and negative. -/
theorem c3_counterexample :
    ∃ t : Int × Nat × Int × Nat × Int,
      pairAB.sortvalues = Except.ok t ∧ t.1 < 0 :=
  ⟨(-1, 0, 0, 0, -1), rfl, by decide⟩

/-- C3 (amended): for a two-element pair with matching design ranks,
sortvalues() is the tuple (countOfValidAmplicons - 1, criticalSnpCount,
mispriming, totalSnpCount, designRank), where the count ranges over pairs of
left/right loci on the same chromosome with amplicon length in [0, 10000];
the first component is NOT floored at 0 (it is -1 when no amplicon is
valid), while mispriming is floored at 0. -/
theorem c3_sortvalues_formula (pp : PrimerPair) (p0 p1 : Primer)
    (he : pp.elems = [p0, p1]) (hr : p0.rank = p1.rank) :
    pp.sortvalues = Except.ok
      ((((List.product p0.loci p1.loci).countP (fun mn =>
          (mn.1.chrom == mn.2.chrom) &&
            inSizeRange (some (0, 10000)) (mn.2.offset + (mn.2.length : Int) - mn.1.offset)) : Nat) : Int) - 1,
        p0.snp.countP (fun s => decide (((2 * p0.seq.length / 3 : Nat) : Int) ≤ s.offset)) +
          p1.snp.countP (fun s => decide (s.offset + (s.length : Int) ≤ ((p1.seq.length / 3 : Nat) : Int))),
        max (((max p0.loci.length p1.loci.length : Nat) : Int) - 1) 0,
        p0.snp.length + p1.snp.length,
        p0.rank) := by
  have hcount := length_flatMap_filter_map p0.loci p1.loci
    (fun m n => (m.chrom == n.chrom) &&
      inSizeRange (some (0, 10000)) (n.offset + (n.length : Int) - m.offset))
    (fun m n => (m, n,
      ({ chrom := m.chrom, chromStart := m.offset, chromEnd := n.offset + (n.length : Int),
         name := pp.name } : GenInterval)))
  simp only [PrimerPair.sortvalues, he, designrankOf, if_pos hr]
  rw [show (ampliconsOf p0 p1 pp.name (some (0, 10000))).length
      = (List.product p0.loci p1.loci).countP (fun mn =>
          (mn.1.chrom == mn.2.chrom) &&
            inSizeRange (some (0, 10000)) (mn.2.offset + (mn.2.length : Int) - mn.1.offset))
    from hcount]
  rfl

/-- C3 witness: a pair with loci (2 left, 1 right) producing one valid
amplicon, so sortvalues = (0, 0, 1, 0, -1). -/
theorem c3_witness : pp8.sortvalues = Except.ok (0, 0, 1, 0, -1) := by
  have h := c3_sortvalues_formula pp8 p8a p8b rfl rfl
  exact h.trans (congrArg Except.ok (by decide))

/-- C4 counterexample: PrimerPair can be constructed from three elements with
the default bound of 2 — list.__init__ performs no bound check, no
BoundExceedError is raised, and len(pair) is 3, not 2. -/
theorem c4_counterexample :
    (PrimerPair.init [pa, pb, pc] (some 2) none).elems = [pa, pb, pc] ∧
    (PrimerPair.init [pa, pb, pc] (some 2) none).elems.length ≠ 2 :=
  ⟨rfl, by decide⟩

/-- C4 (amended): for a pair currently holding exactly two elements with the
default bound 2, append, insert, and (for a nonempty argument) extend,
concatenation and in-place add all raise BoundExceedError; but the
constructor itself never checks, storing any element list as-is. -/
theorem c4_bound_ops (pp : PrimerPair) (x : Primer) (i : Nat) (L : List Primer)
    (hb : pp.length = some 2) (h2 : pp.elems.length = 2) :
    pp.append x = Except.error PyErr.boundExceed ∧
    pp.insert i x = Except.error PyErr.boundExceed ∧
    (L ≠ [] →
      pp.extend L = Except.error PyErr.boundExceed ∧
      pp.add L = Except.error PyErr.boundExceed ∧
      pp.iadd L = Except.error PyErr.boundExceed) ∧
    (∀ (es : List Primer) (ln : Option Nat) (nm : Option String),
      (PrimerPair.init es ln nm).elems = es) := by
  have hitem : pp.checkItemBound = Except.error PyErr.boundExceed := by
    simp only [PrimerPair.checkItemBound, hb]
    rw [if_pos]
    exact ⟨by decide, by omega⟩
  have hlist : ∀ M : List Primer, M ≠ [] → pp.checkListBound M = Except.error PyErr.boundExceed := by
    intro M hM
    have hMlen : 0 < M.length := List.length_pos.mpr hM
    simp only [PrimerPair.checkListBound, hb]
    rw [if_pos]
    exact ⟨by decide, by omega⟩
  refine ⟨?_, ?_, fun hL => ⟨?_, ?_, ?_⟩, fun _ _ _ => rfl⟩
  · simp only [PrimerPair.append, hitem]
  · simp only [PrimerPair.insert, hitem]
  · simp only [PrimerPair.extend, hlist L hL]
  · simp only [PrimerPair.add, hlist L hL]
  · simp only [PrimerPair.iadd, hlist L hL]

/-- C4 witness: the two-element pair pairAB rejects append and extend. -/
theorem c4_witness :
    pairAB.append pc = Except.error PyErr.boundExceed ∧
    pairAB.extend [pc] = Except.error PyErr.boundExceed := by
  have h := c4_bound_ops pairAB pc 0 [pc] rfl rfl
  exact ⟨h.1, (h.2.2.1 (by decide)).1⟩

/-- C5: the store round trip fails at its first step: addPair builds the
execute arguments with p.name(), but PrimerPair.name is a str/None attribute
and not callable, so the pair transaction raises TypeError for the concrete
pair pairX5; the primers were committed by the earlier addPrimer transaction
(2 rows), no pair row is ever written, and the subsequent query over the
pair's span returns the empty list instead of the stored pair. -/
theorem c5_roundtrip_broken :
    (PrimerDB.addPair dbEmpty [pairX5]).2 = some PyErr.typeError ∧
    (PrimerDB.addPair dbEmpty [pairX5]).1.pairs = [] ∧
    (PrimerDB.addPair dbEmpty [pairX5]).1.primer.length = 2 ∧
    PrimerDB.query (PrimerDB.addPair dbEmpty [pairX5]).1 iv5 = Except.ok [] :=
  ⟨rfl, rfl, rfl, rfl⟩

/-- C6 counterexample: an addPair call whose pair stage fails (it always
does: p.name() raises TypeError) nevertheless leaves the two primer rows of
the batch committed — the store state differs from the initial one on the
error path, refuting whole-call atomicity. -/
theorem c6_counterexample :
    (PrimerDB.addPair dbEmpty [pairX5]).2 = some PyErr.typeError ∧
    (PrimerDB.addPair dbEmpty [pairX5]).1.primer.length = 2 ∧
    dbEmpty.primer.length = 0 ∧
    (PrimerDB.addPair dbEmpty [pairX5]).1 ≠ dbEmpty := by
  refine ⟨rfl, rfl, rfl, fun h => ?_⟩
  exact absurd (congrArg (fun d => d.primer.length) h) (by decide)

/-- C6 (amended): addPrimer commits its whole batch in one transaction (in
this model it cannot fail part-way), but addPair is two transactions: the
flattened primer batch is committed first, and the following pair/status
transaction always raises before its commit (AttributeError on a missing
target position, else TypeError from p.name()), so the call ends with the
primer rows committed and the pairs and status tables unchanged. -/
theorem c6_addpair_two_transactions (db : DB) (ps : List PrimerPair) (flat : List Primer)
    (p : PrimerPair) (rest : List PrimerPair) (hps : ps = p :: rest)
    (hflat : flattenPairs ps = Except.ok flat) :
    ∃ e : PyErr, PrimerDB.addPair db ps = (PrimerDB.addPrimer db flat, some e) ∧
      (PrimerDB.addPair db ps).1.pairs = db.pairs ∧
      (PrimerDB.addPair db ps).1.status = db.status := by
  subst hps
  cases hel : p.elems with
  | nil => rw [flattenPairs, hel] at hflat; exact absurd hflat (by simp)
  | cons a tl =>
    cases tl with
    | nil => rw [flattenPairs, hel] at hflat; exact absurd hflat (by simp)
    | cons b tl2 =>
      have hloop : ∃ e, addPairLoop (p :: rest) = Except.error e := by
        simp only [addPairLoop, hel]
        cases a.targetposition with
        | none => exact ⟨PyErr.attributeError, rfl⟩
        | some _ =>
          cases b.targetposition with
          | none => exact ⟨PyErr.attributeError, rfl⟩
          | some _ => exact ⟨PyErr.typeError, rfl⟩
      obtain ⟨e, he⟩ := hloop
      refine ⟨e, ?_, ?_, ?_⟩
      · simp only [PrimerDB.addPair, hflat, he]
      · simp only [PrimerDB.addPair, hflat, he]
        exact addPrimer_pairs_eq flat db
      · simp only [PrimerDB.addPair, hflat, he]
        exact addPrimer_status_eq flat db

/-- C6 witness: the amended statement at the concrete store/pair fixture. -/
theorem c6_witness :
    ∃ e : PyErr, PrimerDB.addPair dbEmpty [pairX5] = (PrimerDB.addPrimer dbEmpty [pL5, pR5], some e) ∧
      (PrimerDB.addPair dbEmpty [pairX5]).1.pairs = dbEmpty.pairs ∧
      (PrimerDB.addPair dbEmpty [pairX5]).1.status = dbEmpty.status :=
  c6_addpair_two_transactions dbEmpty [pairX5] [pL5, pR5] pairX5 [] rfl rfl

/-- C7: uniqueid() hashes only the two tagged sequences —
','.join([str(tag0)+'-'+seq0, str(tag1)+'-'+seq1]) — so two pairs whose
primers agree on (tag, seq) position-wise produce the same digest input and
hence the same uniqueid, regardless of every name involved. -/
theorem c7_uniqueid_name_noninterference (sha1hex : String → String)
    (pp qq : PrimerPair) (a b c d : Primer)
    (hp : pp.elems = [a, b]) (hq : qq.elems = [c, d])
    (t1 : a.tag = c.tag) (s1 : a.seq = c.seq)
    (t2 : b.tag = d.tag) (s2 : b.seq = d.seq) :
    pp.uniqueid sha1hex = qq.uniqueid sha1hex := by
  simp only [PrimerPair.uniqueid, hp, hq, t1, s1, t2, s2]

/-- C7 witness: two concretely differently named pairs with equal tagged
sequences yield equal uniqueid values. -/
theorem c7_witness :
    pp7.uniqueid (fun s => s) = pp7x.uniqueid (fun s => s) :=
  c7_uniqueid_name_noninterference (fun s => s) pp7 pp7x p7a p7b p7c p7d
    rfl rfl rfl (by decide) rfl rfl

/-- C8: mispriming() equals max(max(len(left.loci), len(right.loci)) - 1, 0)
for every pair exposing at least the two indexed primers; it is never
negative, and it is 0 when both loci lists are empty. -/
theorem c8_mispriming_spec (pp : PrimerPair) (p0 p1 : Primer) (rest : List Primer)
    (he : pp.elems = p0 :: p1 :: rest) :
    pp.mispriming = Except.ok (max (((max p0.loci.length p1.loci.length : Nat) : Int) - 1) 0) ∧
    (∀ z : Int, pp.mispriming = Except.ok z → 0 ≤ z) ∧
    ((p0.loci = [] ∧ p1.loci = []) → pp.mispriming = Except.ok 0) := by
  have h1 : pp.mispriming = Except.ok (misprimingOf p0 p1) := by
    simp only [PrimerPair.mispriming, he]
  refine ⟨h1, ?_, ?_⟩
  · intro z hz
    rw [h1] at hz
    injection hz with hz2
    rw [← hz2]
    exact le_max_right _ _
  · rintro ⟨e0, e1⟩
    rw [h1]
    unfold misprimingOf
    rw [e0, e1]
    rfl

/-- C8 witness: with 2 and 1 observed loci, mispriming is 1. -/
theorem c8_witness : pp8.mispriming = Except.ok 1 := by
  have h := (c8_mispriming_spec pp8 p8a p8b [] rfl).1
  exact h.trans (congrArg Except.ok (by decide))

/-- C9: when no name is passed, PrimerPair.__init__ computes
commonPrefix(self[0].name, self[1].name) but never assigns it, so the pair's
name stays None — while the helper itself would have produced "P1" for the
primer names "P1_left"/"P1_right" (common prefix "P1_", separators
stripped). -/
theorem c9_autoname_dropped :
    (PrimerPair.init
      [mkPrimer "P1_left" "ACGT" none none [] none,
       mkPrimer "P1_right" "TTTT" none none [] none] (some 2) none).name = none ∧
    commonLeading "P1_left" "P1_right" ['-', '_', ' '] 3 = some "P1" :=
  ⟨rfl, by decide⟩

/-- C10: the Primer constructor leaves loci empty whatever loci argument is
passed (the parameter is read only by the no-op `if loci: pass`), and
addTarget is the operation that appends an observed mapping locus of the
primer's own length afterwards. -/
theorem c10_loci_param_ignored (name seq : String) (tp : Option Locus)
    (tag : Option String) (lociArg : List Locus) (loc : Option String) :
    (mkPrimer name seq tp tag lociArg loc).loci = [] ∧
    (∀ (chrom : String) (pos : Int) (rev : Bool),
      ((mkPrimer name seq tp tag lociArg loc).addTarget chrom pos rev).loci =
        [{ chrom := chrom, offset := pos,
           length := (mkPrimer name seq tp tag lociArg loc).seq.length, reverse := rev }]) :=
  ⟨rfl, fun _ _ _ => rfl⟩
